import Mathlib

/-!
Shallow embedding of the SSH-tunnel lifecycle manager of pperesbr/gokit
(package tunnel: files config.go and tunnel.go) and proofs of the spec
claims about it.

External effects (reading files, parsing keys, dialing SSH, binding a
listener, closing handles) are modelled by explicit oracle records whose
fields give the result of each effect; handles (ssh.Client, net.Listener,
parsed signers, known-hosts callbacks) are abstracted to numeric ids.
Go errors are modelled as strings (all errors in the package are built
with fmt.Errorf); error wrapping is string concatenation.
-/

namespace GoTunnel

/-- Abstraction of a parsed private-key signer (result of ssh.ParsePrivateKey). -/
structure Signer where
  id : Nat
deriving DecidableEq

/-- Embeds ssh.AuthMethod as selected by NewSSHConfig: either public-key
authentication from a parsed signer (ssh.PublicKeys) or password
authentication (ssh.Password). -/
inductive AuthMethod where
  | publicKeys (signer : Signer)
  | password (pw : String)
deriving DecidableEq

/-- Embeds ssh.HostKeyCallback as selected by NewSSHConfig: either a
callback built from a known-hosts file (knownhosts.New) or the
accept-any-host-key callback (ssh.InsecureIgnoreHostKey). -/
inductive HostKeyCallback where
  | knownHosts (id : Nat)
  | insecureIgnoreHostKey
deriving DecidableEq

/-- Embeds the SSHConfig struct of config.go. -/
structure SSHConfig where
  user : String
  password : String
  keyFile : String
  host : String
  knownHostsFile : String
  port : Int
  authMethod : AuthMethod
  hostKeyCallback : HostKeyCallback
deriving DecidableEq

/-- Oracle for the file-system and parsing effects used by NewSSHConfig:
os.ReadFile, ssh.ParsePrivateKey and knownhosts.New. -/
structure FileSystem where
  readFile : String → Except String String
  parsePrivateKey : String → Except String Signer
  knownHostsNew : String → Except String Nat

/-- Embeds NewSSHConfig of config.go.  Field for field: defaults port 0 to
22, requires host, user, and password-or-keyFile; a nonempty keyFile is
read and parsed into a public-key auth method (taking precedence over the
password); a nonempty knownHostsFile is loaded into a host-key callback,
otherwise the insecure accept-any callback is used. -/
def NewSSHConfig (fs : FileSystem) (user password keyFile host knownHostsFile : String)
    (port : Int) : Except String SSHConfig :=
  let port := if port = 0 then 22 else port
  if host = "" then .error "host is required"
  else if user = "" then .error "user is required"
  else if password = "" ∧ keyFile = "" then .error "password or keyFile is required"
  else
    let authRes : Except String AuthMethod :=
      if keyFile ≠ "" then
        match fs.readFile keyFile with
        | .error e => .error ("failed to read keyFile: " ++ e)
        | .ok key =>
          match fs.parsePrivateKey key with
          | .error e => .error ("failed to parse keyFile: " ++ e)
          | .ok signer => .ok (.publicKeys signer)
      else .ok (.password password)
    match authRes with
    | .error e => .error e
    | .ok auth =>
      let hkRes : Except String HostKeyCallback :=
        if knownHostsFile ≠ "" then
          match fs.knownHostsNew knownHostsFile with
          | .error e => .error ("failed to load known_hosts: " ++ e)
          | .ok id => .ok (.knownHosts id)
        else .ok .insecureIgnoreHostKey
      match hkRes with
      | .error e => .error e
      | .ok hk =>
        .ok { user := user, password := password, keyFile := keyFile, host := host,
              knownHostsFile := knownHostsFile, port := port,
              authMethod := auth, hostKeyCallback := hk }

/-- Embeds SSHConfig.Addr of config.go. -/
def SSHConfig.Addr (c : SSHConfig) : String :=
  c.host ++ ":" ++ toString c.port

/-- Embeds SSHConfig.IsInsecure of config.go. -/
def SSHConfig.IsInsecure (c : SSHConfig) : Bool :=
  c.knownHostsFile = ""

/-- Embeds the Status string enumeration of tunnel.go. -/
inductive Status where
  | stopped
  | starting
  | running
  | error
deriving DecidableEq

/-- Embeds the Stats struct of tunnel.go; time.Time is abstracted to a
Nat timestamp whose zero value is 0. -/
structure Stats where
  bytesIn : Int
  bytesOut : Int
  connections : Int
  activeConnections : Int
  lastActivity : Nat
  startedAt : Nat
deriving DecidableEq

/-- The Go zero value of Stats. -/
def Stats.zero : Stats :=
  { bytesIn := 0, bytesOut := 0, connections := 0, activeConnections := 0,
    lastActivity := 0, startedAt := 0 }

/-- State of the done channel of a Tunnel: nil (never made), allocated and
open, or closed. -/
inductive ChanState where
  | nil
  | opened
  | closed
deriving DecidableEq

/-- Embeds the Tunnel struct of tunnel.go; ssh.Client and net.Listener
handles are abstracted to numeric ids, absent handles are none. -/
structure Tunnel where
  config : Option SSHConfig
  remoteHost : String
  remotePort : Int
  localPort : Int
  client : Option Nat
  listener : Option Nat
  actualPort : Int
  status : Status
  lastError : Option String
  stats : Stats
  done : ChanState
deriving DecidableEq

/-- Embeds NewTunnel of tunnel.go: only the four arguments and status are
set explicitly; the remaining fields take their Go zero values. -/
def NewTunnel (config : Option SSHConfig) (remoteHost : String)
    (remotePort localPort : Int) : Tunnel :=
  { config := config, remoteHost := remoteHost, remotePort := remotePort,
    localPort := localPort, client := none, listener := none, actualPort := 0,
    status := .stopped, lastError := none, stats := Stats.zero, done := .nil }

/-- Embeds Tunnel.Validate of tunnel.go. -/
def Tunnel.Validate (t : Tunnel) : Option String :=
  if t.config = none then some "config is required"
  else if t.remoteHost = "" then some "remoteHost is required"
  else if t.remotePort ≤ 0 then some "remotePort must be greater than 0"
  else if t.localPort < 0 then some "localPort must be 0 or greater"
  else none

/-- Embeds Tunnel.setError of tunnel.go. -/
def Tunnel.setError (t : Tunnel) (err : String) : Tunnel :=
  { t with status := .error, lastError := some err }

/-- Oracle for the external effects of one Start call: the result of
ssh.Dial, the result of net.Listen together with the actual bound port,
and the current time. -/
structure StartWorld where
  dial : Except String Nat
  listen : Except String (Nat × Int)
  now : Nat

/-- Embeds Tunnel.Start of tunnel.go.  Returns the updated tunnel and the
returned error (none on success). -/
def Tunnel.Start (t : Tunnel) (w : StartWorld) : Tunnel × Option String :=
  if t.status = .running then
    (t, some "tunnel is already running")
  else
    let t := { t with status := .starting, lastError := none }
    match t.Validate with
    | some err => (t.setError err, some err)
    | none =>
      match w.dial with
      | .error e =>
        let err := "failed to connect to ssh server: " ++ e
        (t.setError err, some err)
      | .ok client =>
        match w.listen with
        | .error e =>
          let err := "failed to create local listener: " ++ e
          (t.setError err, some err)
        | .ok (listener, actualPort) =>
          ({ t with client := some client, listener := some listener,
                    actualPort := actualPort, status := .running,
                    done := .opened,
                    stats := { Stats.zero with startedAt := w.now } }, none)

/-- Oracle for the external effects of one Stop call: the error returned
by closing the listener and by closing the ssh client (none = close
succeeded). -/
structure StopWorld where
  listenerCloseErr : Option String
  clientCloseErr : Option String

/-- The errs slice collected by Tunnel.Stop of tunnel.go: a close error is
recorded only when the corresponding handle is present and its Close call
fails, listener first, then client. -/
def Tunnel.stopErrs (t : Tunnel) (w : StopWorld) : List String :=
  (match t.listener, w.listenerCloseErr with
   | some _, some e => ["failed to close listener: " ++ e]
   | _, _ => []) ++
  (match t.client, w.clientCloseErr with
   | some _, some e => ["failed to close ssh client: " ++ e]
   | _, _ => [])

/-- Rendering of the aggregate error fmt.Errorf of Tunnel.Stop, with the
collected errors formatted as a Go slice. -/
def aggregateStopError (errs : List String) : String :=
  "errors stopping tunnel: [" ++ String.intercalate " " errs ++ "]"

/-- Outcome of one Stop (or Restart) call: the Go code panics at
close(t.done) when the done channel is non-nil and already closed (close
of a closed channel is a runtime panic), and otherwise returns an updated
tunnel together with an optional error. -/
inductive StopResult where
  | panicked
  | ret (t : Tunnel) (err : Option String)
deriving DecidableEq

/-- Embeds Tunnel.Stop of tunnel.go: no-op when already Stopped; panics
when the non-nil done channel is already closed; otherwise closes the
done channel if allocated, closes and clears both handles collecting
close errors, sets status Stopped, zeroes actualPort and stats, and
returns the aggregate error when any close failed. -/
def Tunnel.Stop (t : Tunnel) (w : StopWorld) : StopResult :=
  if t.status = .stopped then
    .ret t none
  else if t.done = ChanState.closed then
    .panicked
  else
    let doneAfter := if t.done ≠ ChanState.nil then ChanState.closed else t.done
    let errs := t.stopErrs w
    let t := { t with listener := none, client := none, status := .stopped,
                      actualPort := 0, stats := Stats.zero, done := doneAfter }
    if errs = [] then .ret t none else .ret t (some (aggregateStopError errs))

/-- Embeds Tunnel.Restart of tunnel.go; a panic in Stop propagates. -/
def Tunnel.Restart (t : Tunnel) (sw : StopWorld) (w : StartWorld) : StopResult :=
  match t.Stop sw with
  | .panicked => .panicked
  | .ret t1 (some e) => .ret t1 (some ("failed to stop: " ++ e))
  | .ret t1 none => .ret (t1.Start w).1 (t1.Start w).2

/-- Embeds Tunnel.UpdateConfig of tunnel.go. -/
def Tunnel.UpdateConfig (t : Tunnel) (config : Option SSHConfig) : Tunnel :=
  { t with config := config }

/-- Embeds Tunnel.Close of tunnel.go, an alias for Stop. -/
def Tunnel.Close (t : Tunnel) (w : StopWorld) : StopResult :=
  t.Stop w

/-- Embeds Tunnel.LocalPort of tunnel.go. -/
def Tunnel.LocalPort (t : Tunnel) : Int :=
  if t.actualPort > 0 then t.actualPort else t.localPort

/-! Concrete sample values used by witnesses and counterexamples. -/

/-- File system on which every read and parse fails. -/
def fsEmpty : FileSystem :=
  { readFile := fun _ => .error "no such file",
    parsePrivateKey := fun _ => .error "invalid key",
    knownHostsNew := fun _ => .error "invalid known_hosts" }

/-- File system on which every read and parse succeeds. -/
def fsGood : FileSystem :=
  { readFile := fun _ => .ok "KEYDATA",
    parsePrivateKey := fun _ => .ok { id := 7 },
    knownHostsNew := fun _ => .ok 3 }

/-- A sample resolved config (password auth, insecure host keys). -/
def sampleCfg : SSHConfig :=
  { user := "u", password := "p", keyFile := "", host := "bastion",
    knownHostsFile := "", port := 22,
    authMethod := .password "p", hostKeyCallback := .insecureIgnoreHostKey }

/-- A sample running tunnel with live handles. -/
def tRunning : Tunnel :=
  { config := some sampleCfg, remoteHost := "db", remotePort := 1521,
    localPort := 0, client := some 1, listener := some 2, actualPort := 15000,
    status := .running, lastError := none, stats := Stats.zero, done := .opened }

/-- A sample freshly constructed (stopped) tunnel. -/
def tStopped : Tunnel :=
  NewTunnel (some sampleCfg) "db" 1521 0

/-- A sample tunnel whose spec fails Validate (nil config). -/
def tNoConfig : Tunnel :=
  NewTunnel none "db" 1521 0

/-- A start world where dial and listen both succeed. -/
def wStartOk : StartWorld :=
  { dial := .ok 1, listen := .ok (2, 15000), now := 5 }

/-- A stop world where both closes succeed. -/
def wStopOk : StopWorld :=
  { listenerCloseErr := none, clientCloseErr := none }

/-- A stop world where both closes fail. -/
def wStopBothFail : StopWorld :=
  { listenerCloseErr := some "use of closed listener",
    clientCloseErr := some "connection reset" }

/-- The state of a tunnel that ran and was stopped: handles cleared, port
and stats zeroed, done channel left closed. -/
def tStoppedAfterRun : Tunnel :=
  { config := some sampleCfg, remoteHost := "db", remotePort := 1521,
    localPort := 0, client := none, listener := none, actualPort := 0,
    status := .stopped, lastError := none, stats := Stats.zero, done := .closed }

/-- The state reached by NewTunnel, Start (success), Stop, UpdateConfig to
a nil config, Start (validation failure): status Error with the done
channel still the closed one from the completed Stop. -/
def tPanicState : Tunnel :=
  { config := none, remoteHost := "db", remotePort := 1521, localPort := 0,
    client := none, listener := none, actualPort := 0, status := .error,
    lastError := some "config is required", stats := Stats.zero, done := .closed }

/-! Reachability by complete sequential lifecycle operations. -/

/-- The handle/status invariant: Running exactly when both handles are
live; Stopped and Error states carry no handles and bound port 0; the
transient Starting status is never observable between complete
operations. -/
def Inv (t : Tunnel) : Prop :=
  (t.status = .running ↔ (t.client.isSome ∧ t.listener.isSome)) ∧
    ((t.status = .stopped ∨ t.status = .error) →
      t.client = none ∧ t.listener = none ∧ t.actualPort = 0) ∧
    t.status ≠ .starting

/-- States reachable from NewTunnel by complete lifecycle operations with
arbitrary external-world outcomes; a Stop, Restart or Close that panics
yields no resulting state, so only its returning runs extend
reachability. -/
inductive Reach : Tunnel → Prop where
  | base (cfg : Option SSHConfig) (rh : String) (rp lp : Int) :
      Reach (NewTunnel cfg rh rp lp)
  | start (t : Tunnel) (w : StartWorld) : Reach t → Reach ((t.Start w).1)
  | stop (t : Tunnel) (w : StopWorld) (t1 : Tunnel) (e : Option String) :
      Reach t → t.Stop w = .ret t1 e → Reach t1
  | restart (t : Tunnel) (sw : StopWorld) (w : StartWorld)
      (t1 : Tunnel) (e : Option String) :
      Reach t → t.Restart sw w = .ret t1 e → Reach t1
  | update (t : Tunnel) (c : Option SSHConfig) : Reach t → Reach (t.UpdateConfig c)
  | close (t : Tunnel) (w : StopWorld) (t1 : Tunnel) (e : Option String) :
      Reach t → t.Close w = .ret t1 e → Reach t1

/-! Claim theorems. -/

/-- C1: for every tunnel whose status is Running, Start returns the error
"tunnel is already running" and the tunnel state is left exactly
unchanged. -/
theorem start_on_running_fails_unchanged (t : Tunnel) (w : StartWorld)
    (h : t.status = .running) :
    t.Start w = (t, some "tunnel is already running") := by
  simp [Tunnel.Start, h]

/-- Witness for C1 at a concrete running tunnel. -/
theorem start_on_running_fails_unchanged_witness :
    tRunning.status = .running ∧
      tRunning.Start wStartOk = (tRunning, some "tunnel is already running") :=
  ⟨rfl, start_on_running_fails_unchanged tRunning wStartOk rfl⟩

/-- C8: Stop on a Stopped tunnel is an idempotent no-op: it returns no
error and leaves the state untouched, and any completed Stop yields a
Stopped state whose next Stop is such a no-op, so Stop;Stop has the same
result and final state as one completed Stop. -/
theorem stop_idempotent_noop (t : Tunnel) (w w2 : StopWorld) :
    (t.status = .stopped → t.Stop w = .ret t none) ∧
      (∀ (t1 : Tunnel) (e : Option String),
        t.Stop w = .ret t1 e → t1.Stop w2 = .ret t1 none) := by
  have key : ∀ (s : Tunnel) (u : StopWorld), s.status = .stopped →
      s.Stop u = .ret s none := by
    intro s u hs
    simp [Tunnel.Stop, hs]
  refine ⟨key t w, ?_⟩
  intro t1 e h1
  have hst : t1.status = .stopped := by
    by_cases h : t.status = .stopped
    · simp only [Tunnel.Stop, if_pos h] at h1
      cases h1
      exact h
    · simp only [Tunnel.Stop, if_neg h] at h1
      by_cases hd : t.done = ChanState.closed
      · simp [hd] at h1
      · simp only [if_neg hd] at h1
        split at h1 <;> cases h1 <;> rfl
  exact key t1 w2 hst

/-- Witness for C8 at a concrete stopped tunnel and a concrete completed
Stop of a running tunnel. -/
theorem stop_idempotent_noop_witness :
    tStopped.Stop wStopOk = .ret tStopped none ∧
      tStoppedAfterRun.Stop wStopOk = .ret tStoppedAfterRun none :=
  ⟨(stop_idempotent_noop tStopped wStopOk wStopOk).1 rfl,
   (stop_idempotent_noop tRunning wStopBothFail wStopOk).2 tStoppedAfterRun
     (some (aggregateStopError
       ["failed to close listener: " ++ "use of closed listener",
        "failed to close ssh client: " ++ "connection reset"]))
     (by decide)⟩

/-- C9: UpdateConfig replaces only the stored config; every other field of
the tunnel (status, last error, handles, stats, ports, remote endpoint,
done channel) is unchanged. -/
theorem updateConfig_replaces_only_config (t : Tunnel) (c : Option SSHConfig) :
    (t.UpdateConfig c).config = c ∧
      (t.UpdateConfig c).status = t.status ∧
      (t.UpdateConfig c).lastError = t.lastError ∧
      (t.UpdateConfig c).client = t.client ∧
      (t.UpdateConfig c).listener = t.listener ∧
      (t.UpdateConfig c).stats = t.stats ∧
      (t.UpdateConfig c).actualPort = t.actualPort ∧
      (t.UpdateConfig c).remoteHost = t.remoteHost ∧
      (t.UpdateConfig c).remotePort = t.remotePort ∧
      (t.UpdateConfig c).localPort = t.localPort ∧
      (t.UpdateConfig c).done = t.done := by
  simp [Tunnel.UpdateConfig]

/-- C4, failing input: the same reachable Error state with a closed done
channel defeats the stats-reset guarantee: this Stop call is not the
Stopped no-op, yet it panics before the stats reset and never returns any
state at all, for every outcome of the close calls. -/
theorem stop_panic_skips_stats_reset :
    tPanicState.status ≠ .stopped ∧
      (∀ (w : StopWorld) (t1 : Tunnel) (e : Option String),
        tPanicState.Stop w ≠ .ret t1 e) := by
  refine ⟨by decide, ?_⟩
  intro w t1 e h
  simp [Tunnel.Stop, tPanicState] at h

/-- C2: for every tunnel not Running whose spec fails Validate, Start
returns the validation error, sets status to Error and lastError to that
same error, and stores no SSH session or listener (both handle fields are
exactly as before the call). -/
theorem start_validation_error (t : Tunnel) (w : StartWorld) (e : String)
    (hr : t.status ≠ .running) (hv : t.Validate = some e) :
    (t.Start w).2 = some e ∧
      (t.Start w).1.status = .error ∧
      (t.Start w).1.lastError = some e ∧
      (t.Start w).1.client = t.client ∧
      (t.Start w).1.listener = t.listener := by
  have hv2 : ({ t with status := Status.starting, lastError := none } : Tunnel).Validate
      = some e := hv
  simp [Tunnel.Start, if_neg hr, hv2, Tunnel.setError]

/-- Witness for C2 at a concrete tunnel with a nil config. -/
theorem start_validation_error_witness :
    tNoConfig.status ≠ Status.running ∧
      tNoConfig.Validate = some "config is required" ∧
      (tNoConfig.Start wStartOk).2 = some "config is required" ∧
      (tNoConfig.Start wStartOk).1.status = .error ∧
      (tNoConfig.Start wStartOk).1.lastError = some "config is required" ∧
      (tNoConfig.Start wStartOk).1.client = tNoConfig.client ∧
      (tNoConfig.Start wStartOk).1.listener = tNoConfig.listener := by
  have h := start_validation_error tNoConfig wStartOk "config is required"
    (by decide) (by decide)
  exact ⟨by decide, by decide, h.1, h.2.1, h.2.2.1, h.2.2.2.1, h.2.2.2.2⟩

/-- C3, failing input: the state reached by NewTunnel, Start (success),
Stop, UpdateConfig to a nil config, Start (validation failure) has status
Error and an already-closed done channel; Stop there panics at
close(t.done) for every outcome of the close calls — it never transitions
to Stopped and never returns an aggregate error. -/
theorem stop_panics_on_reachable_error_state :
    Reach tPanicState ∧ tPanicState.status = .error ∧
      (∀ w : StopWorld, tPanicState.Stop w = .panicked) := by
  refine ⟨?_, by decide, fun w => rfl⟩
  have h0 : Reach (NewTunnel (some sampleCfg) "db" 1521 0) :=
    Reach.base (some sampleCfg) "db" 1521 0
  have h1 := Reach.start (NewTunnel (some sampleCfg) "db" 1521 0) wStartOk h0
  have h2 := Reach.stop ((NewTunnel (some sampleCfg) "db" 1521 0).Start wStartOk).1
    wStopOk tStoppedAfterRun none h1 (by decide)
  have h3 := Reach.update tStoppedAfterRun none h2
  have h4 := Reach.start (tStoppedAfterRun.UpdateConfig none) wStartOk h3
  have heq : ((tStoppedAfterRun.UpdateConfig none).Start wStartOk).1 = tPanicState := by
    decide
  rwa [heq] at h4

/-- Counterexample for C5: NewSSHConfig performs no port-range check; a
negative port with valid host, user and password is accepted with no
error, the out-of-range port stored as given. -/
theorem newSSHConfig_no_port_range_check_cex :
    NewSSHConfig fsEmpty "user" "secret" "" "bastion" "" (-5) =
      .ok { user := "user", password := "secret", keyFile := "", host := "bastion",
            knownHostsFile := "", port := -5,
            authMethod := .password "secret",
            hostKeyCallback := .insecureIgnoreHostKey } := by
  rfl

/-- C5 amended: NewSSHConfig performs no port-range validation; with valid
host and user, valid auth material (a nonempty password with no key file,
or a readable and parseable key file), and a knownHostsFile that is empty
or loadable, it succeeds for every port, storing port 22 when given 0 and
otherwise the port exactly as given, even out of range. -/
theorem newSSHConfig_accepts_any_port (fs : FileSystem)
    (user pwd kf host khf : String) (port : Int)
    (hh : host ≠ "") (hu : user ≠ "")
    (hauth : (kf = "" ∧ pwd ≠ "") ∨
      (kf ≠ "" ∧ ∃ key signer, fs.readFile kf = .ok key ∧
        fs.parsePrivateKey key = .ok signer))
    (hkh : khf = "" ∨ ∃ id, fs.knownHostsNew khf = .ok id) :
    ∃ cfg, NewSSHConfig fs user pwd kf host khf port = .ok cfg ∧
      cfg.port = (if port = 0 then 22 else port) := by
  rcases hauth with ⟨hkf, hp⟩ | ⟨hkf, key, signer, hr, hs⟩
  · subst hkf
    by_cases hkhf : khf = ""
    · subst hkhf
      refine ⟨{ user := user, password := pwd, keyFile := "", host := host,
                knownHostsFile := "", port := if port = 0 then 22 else port,
                authMethod := .password pwd,
                hostKeyCallback := .insecureIgnoreHostKey }, ?_, rfl⟩
      simp [NewSSHConfig, hh, hu, hp]
    · rcases hkh with hkh2 | ⟨id, hid⟩
      · exact absurd hkh2 hkhf
      · refine ⟨{ user := user, password := pwd, keyFile := "", host := host,
                  knownHostsFile := khf, port := if port = 0 then 22 else port,
                  authMethod := .password pwd,
                  hostKeyCallback := .knownHosts id }, ?_, rfl⟩
        simp [NewSSHConfig, hh, hu, hp, hkhf, hid]
  · by_cases hkhf : khf = ""
    · subst hkhf
      refine ⟨{ user := user, password := pwd, keyFile := kf, host := host,
                knownHostsFile := "", port := if port = 0 then 22 else port,
                authMethod := .publicKeys signer,
                hostKeyCallback := .insecureIgnoreHostKey }, ?_, rfl⟩
      simp [NewSSHConfig, hh, hu, hkf, hr, hs]
    · rcases hkh with hkh2 | ⟨id, hid⟩
      · exact absurd hkh2 hkhf
      · refine ⟨{ user := user, password := pwd, keyFile := kf, host := host,
                  knownHostsFile := khf, port := if port = 0 then 22 else port,
                  authMethod := .publicKeys signer,
                  hostKeyCallback := .knownHosts id }, ?_, rfl⟩
        simp [NewSSHConfig, hh, hu, hkf, hr, hs, hkhf, hid]

/-- Witness for the amended C5 at a concrete negative port with key-file
auth and a loadable known-hosts file. -/
theorem newSSHConfig_accepts_any_port_witness :
    ∃ cfg, NewSSHConfig fsGood "user" "pw" "id_rsa" "bastion" "kh" (-5) = .ok cfg ∧
      cfg.port = (if (-5 : Int) = 0 then 22 else -5) :=
  newSSHConfig_accepts_any_port fsGood "user" "pw" "id_rsa" "bastion" "kh" (-5)
    (by decide) (by decide)
    (Or.inr ⟨by decide, "KEYDATA", { id := 7 }, rfl, rfl⟩)
    (Or.inr ⟨3, rfl⟩)

/-- Inversion for a successful NewSSHConfig: the stored knownHostsFile is
the given one, and an empty knownHostsFile yields the insecure host-key
callback. -/
theorem newSSHConfig_ok_inv (fs : FileSystem)
    (u p kf h khf : String) (port : Int) (cfg : SSHConfig)
    (hok : NewSSHConfig fs u p kf h khf port = .ok cfg) :
    cfg.knownHostsFile = khf ∧
      (khf = "" → cfg.hostKeyCallback = .insecureIgnoreHostKey) := by
  simp only [NewSSHConfig] at hok
  split at hok
  · simp_all
  · split at hok
    · simp_all
    · split at hok
      · simp_all
      · split at hok
        · simp_all
        · split at hok
          · simp_all
          · rename_i heq
            split at heq
            · split at heq
              · simp_all
              · cases hok
                simp_all
            · cases hok
              simp_all

/-- C6: for every successfully resolved SSH config, IsInsecure holds iff
the knownHostsFile input was empty, and in that case the stored host-key
callback is the accept-any-host-key callback. -/
theorem isInsecure_iff_no_known_hosts (fs : FileSystem)
    (u p kf h khf : String) (port : Int) (cfg : SSHConfig)
    (hok : NewSSHConfig fs u p kf h khf port = .ok cfg) :
    (cfg.IsInsecure = true ↔ khf = "") ∧
      (khf = "" → cfg.hostKeyCallback = .insecureIgnoreHostKey) := by
  obtain ⟨h1, h2⟩ := newSSHConfig_ok_inv fs u p kf h khf port cfg hok
  refine ⟨?_, h2⟩
  simp [SSHConfig.IsInsecure, h1]

/-- Witness for C6 at a concrete config with empty knownHostsFile. -/
theorem isInsecure_iff_no_known_hosts_witness :
    NewSSHConfig fsEmpty "user" "secret" "" "bastion" "" 22 =
        .ok { user := "user", password := "secret", keyFile := "", host := "bastion",
              knownHostsFile := "", port := 22,
              authMethod := .password "secret",
              hostKeyCallback := .insecureIgnoreHostKey } ∧
      (({ user := "user", password := "secret", keyFile := "", host := "bastion",
          knownHostsFile := "", port := 22,
          authMethod := .password "secret",
          hostKeyCallback := .insecureIgnoreHostKey } : SSHConfig).IsInsecure = true
        ↔ ("" : String) = "") :=
  ⟨rfl, (isInsecure_iff_no_known_hosts fsEmpty "user" "secret" "" "bastion" "" 22 _ rfl).1⟩

/-- C7: when both a password and a readable, parseable keyFile are
supplied, a successful NewSSHConfig selects public-key authentication
derived from the keyFile, never password authentication. -/
theorem keyFile_takes_precedence (fs : FileSystem) (u p kf h khf : String)
    (port : Int) (key : String) (signer : Signer) (cfg : SSHConfig)
    (hp : p ≠ "") (hk : kf ≠ "")
    (hr : fs.readFile kf = .ok key)
    (hs : fs.parsePrivateKey key = .ok signer)
    (hok : NewSSHConfig fs u p kf h khf port = .ok cfg) :
    cfg.authMethod = .publicKeys signer := by
  simp only [NewSSHConfig] at hok
  split at hok
  · simp_all
  · split at hok
    · simp_all
    · split at hok
      · simp_all
      · split at hok
        · rename_i heq
          simp_all
        · rename_i auth heq
          simp only [hr] at heq
          simp only [hs] at heq
          split at hok
          · simp_all
          · cases hok
            simp_all

/-- Witness for C7 at a concrete file system where the key file is read
and parsed successfully while a password is also supplied. -/
theorem keyFile_takes_precedence_witness :
    ("pw" : String) ≠ "" ∧ ("id_rsa" : String) ≠ "" ∧
      fsGood.readFile "id_rsa" = .ok "KEYDATA" ∧
      fsGood.parsePrivateKey "KEYDATA" = .ok { id := 7 } ∧
      ∃ cfg, NewSSHConfig fsGood "user" "pw" "id_rsa" "bastion" "" 22 = .ok cfg ∧
        cfg.authMethod = .publicKeys { id := 7 } := by
  refine ⟨by decide, by decide, rfl, rfl,
    { user := "user", password := "pw", keyFile := "id_rsa", host := "bastion",
      knownHostsFile := "", port := 22,
      authMethod := .publicKeys { id := 7 },
      hostKeyCallback := .insecureIgnoreHostKey }, rfl, ?_⟩
  exact keyFile_takes_precedence fsGood "user" "pw" "id_rsa" "bastion" "" 22
    "KEYDATA" { id := 7 } _ (by decide) (by decide) rfl rfl rfl

/-- The invariant holds of every freshly constructed tunnel. -/
theorem inv_new (cfg : Option SSHConfig) (rh : String) (rp lp : Int) :
    Inv (NewTunnel cfg rh rp lp) := by
  simp [Inv, NewTunnel]

/-- Start preserves the invariant. -/
theorem inv_start (t : Tunnel) (w : StartWorld) (ht : Inv t) :
    Inv ((t.Start w).1) := by
  by_cases hr : t.status = .running
  · simpa [Tunnel.Start, hr] using ht
  · have hhandles : t.client = none ∧ t.listener = none ∧ t.actualPort = 0 := by
      apply ht.2.1
      cases hstat : t.status with
      | stopped => exact Or.inl rfl
      | starting => exact absurd hstat ht.2.2
      | running => exact absurd hstat hr
      | error => exact Or.inr rfl
    simp only [Tunnel.Start, if_neg hr]
    split
    · simp [Inv, Tunnel.setError, hhandles.1, hhandles.2.1, hhandles.2.2]
    · split
      · simp [Inv, Tunnel.setError, hhandles.1, hhandles.2.1, hhandles.2.2]
      · split
        · simp [Inv, Tunnel.setError, hhandles.1, hhandles.2.1, hhandles.2.2]
        · simp [Inv]

/-- A returning Stop preserves the invariant. -/
theorem inv_stop (t : Tunnel) (w : StopWorld) (t1 : Tunnel) (e : Option String)
    (ht : Inv t) (h : t.Stop w = .ret t1 e) : Inv t1 := by
  by_cases hs : t.status = .stopped
  · simp only [Tunnel.Stop, if_pos hs] at h
    cases h
    exact ht
  · simp only [Tunnel.Stop, if_neg hs] at h
    by_cases hd : t.done = ChanState.closed
    · simp [hd] at h
    · simp only [if_neg hd] at h
      split at h <;> cases h <;> simp [Inv]

/-- UpdateConfig preserves the invariant. -/
theorem inv_update (t : Tunnel) (c : Option SSHConfig) (ht : Inv t) :
    Inv (t.UpdateConfig c) := by
  simpa [Inv, Tunnel.UpdateConfig] using ht

/-- A returning Restart preserves the invariant. -/
theorem inv_restart (t : Tunnel) (sw : StopWorld) (w : StartWorld)
    (t1 : Tunnel) (e : Option String) (ht : Inv t)
    (h : t.Restart sw w = .ret t1 e) : Inv t1 := by
  unfold Tunnel.Restart at h
  split at h
  · exact absurd h (by simp)
  · rename_i t2 e2 heq
    injection h with h1 h2
    subst h1
    exact inv_stop _ _ _ _ ht heq
  · rename_i t2 heq
    injection h with h1 h2
    subst h1
    exact inv_start _ w (inv_stop _ _ _ _ ht heq)

/-- Every reachable state satisfies the invariant. -/
theorem reach_inv (t : Tunnel) (h : Reach t) : Inv t := by
  induction h with
  | base cfg rh rp lp => exact inv_new cfg rh rp lp
  | start t w _ ih => exact inv_start t w ih
  | stop t w t1 e _ heq ih => exact inv_stop t w t1 e ih heq
  | restart t sw w t1 e _ heq ih => exact inv_restart t sw w t1 e ih heq
  | update t c _ ih => exact inv_update t c ih
  | close t w t1 e _ heq ih => exact inv_stop t w t1 e ih heq

/-- C10: in every state reachable by complete lifecycle operations, the
status is Running iff both the SSH client and listener handles are
non-nil, Stopped and Error states carry nil handles and bound port 0, and
a freshly constructed tunnel is Stopped with nil handles and nil last
error. -/
theorem lifecycle_handle_invariant (t : Tunnel) (h : Reach t) :
    (t.status = .running ↔ (t.client.isSome ∧ t.listener.isSome)) ∧
      ((t.status = .stopped ∨ t.status = .error) →
        t.client = none ∧ t.listener = none ∧ t.actualPort = 0) ∧
      (∀ (cfg : Option SSHConfig) (rh : String) (rp lp : Int),
        (NewTunnel cfg rh rp lp).status = .stopped ∧
          (NewTunnel cfg rh rp lp).client = none ∧
          (NewTunnel cfg rh rp lp).listener = none ∧
          (NewTunnel cfg rh rp lp).lastError = none) := by
  have hi := reach_inv t h
  exact ⟨hi.1, hi.2.1, fun cfg rh rp lp => ⟨rfl, rfl, rfl, rfl⟩⟩

/-- Witness for C10 at a concrete reachable state: a fresh tunnel started
successfully. -/
theorem lifecycle_handle_invariant_witness :
    ((tStopped.Start wStartOk).1.status = .running ↔
        ((tStopped.Start wStartOk).1.client.isSome ∧
          (tStopped.Start wStartOk).1.listener.isSome)) ∧
      (((tStopped.Start wStartOk).1.status = .stopped ∨
          (tStopped.Start wStartOk).1.status = .error) →
        (tStopped.Start wStartOk).1.client = none ∧
          (tStopped.Start wStartOk).1.listener = none ∧
          (tStopped.Start wStartOk).1.actualPort = 0) := by
  have h := lifecycle_handle_invariant (tStopped.Start wStartOk).1
    (Reach.start tStopped wStartOk
      (Reach.base (some sampleCfg) "db" 1521 0))
  exact ⟨h.1, h.2.1⟩

end GoTunnel
